import Mathlib

/-!
Verification of the two yfinance fetcher scripts
(`yfinance_fetcher.py`, script 1, and `yfinance_history_fetcher.py`,
script 2): a shallow embedding of their value-normalization routines,
table/series adapters, request readers and main functions, together with
proofs about them.

Modelling conventions:
* Python floats are modelled as a rational (`finite`) or one of the three
  non-finite values `nan`, `inf`, `negInf`.  The scripts perform no float
  arithmetic — only finiteness tests, NaN self-comparison and conversions —
  so this abstraction is exact for everything the scripts do.
* Python dynamic values are modelled by the inductive `PyVal`; provider
  wrapper objects (numpy/pandas scalars and arrays probed via `item` /
  `tolist`) are modelled by the `wrapper` constructor whose fields record
  whether each attribute is absent, raises, or returns a value.
* `json.loads` output is modelled by the inductive `JVal`; `json.dumps` by
  the function `jser` (string escaping and the exact repr of finite floats
  are abstracted; the NaN/Infinity token behaviour, key coercion and
  TypeError behaviour are modelled faithfully).
-/

namespace Wealth

/-- Model of a Python float: a finite value (as a rational) or one of the
three non-finite values. -/
inductive PFloat where
  | finite (q : ℚ)
  | nan
  | inf
  | negInf
deriving DecidableEq, Repr

/-- Model of `math.isfinite`. -/
def PFloat.isFinite : PFloat → Bool
  | .finite _ => true
  | _ => false

/-- Model of a Python runtime value as seen by `_to_json_compatible`.
`wrapper item tolist reprStr` models a provider object probed via
`hasattr(v, "item")` / `hasattr(v, "tolist")`: a field `Option.none` means
the attribute is absent, `some Option.none` means calling it raises, and
`some (some v)` means it returns `v`.  `datetime iso utcDate` carries both
`isoformat()` and the UTC calendar date of the instant (the embedding does
not model timezone arithmetic, so the latter is carried as data). -/
inductive PyVal where
  | none
  | bool (b : Bool)
  | int (n : ℤ)
  | float (f : PFloat)
  | complex
  | date (iso : String)
  | datetime (iso : String) (utcDate : String)
  | str (s : String)
  | dict (kvs : List (PyVal × PyVal))
  | list (xs : List PyVal)
  | tuple (xs : List PyVal)
  | wrapper (item : Option (Option PyVal)) (tolist : Option (Option PyVal)) (reprStr : String)
  | obj (reprStr : String)
deriving Repr

/-- Model of Python `str.strip()`: drop whitespace from both ends. -/
def pstrip (s : String) : String :=
  ⟨((s.data.dropWhile Char.isWhitespace).reverse.dropWhile Char.isWhitespace).reverse⟩

/-- Model of Python `str(value)` on a `PyVal`.  On scalars it is faithful;
on containers (which in the scripts is only reachable for unhashable-key
corner cases that cannot occur) the repr is abstracted to a marker. -/
def pyStr : PyVal → String
  | .none => "None"
  | .bool b => if b then "True" else "False"
  | .int n => toString n
  | .float (.finite q) => toString q
  | .float .nan => "nan"
  | .float .inf => "inf"
  | .float .negInf => "-inf"
  | .complex => "complex"
  | .date iso => iso
  | .datetime iso _ => iso
  | .str s => s
  | .dict _ => "dict-repr"
  | .list _ => "list-repr"
  | .tuple _ => "tuple-repr"
  | .wrapper _ _ r => r
  | .obj r => r

mutual

/-- Embedding of `_to_json_compatible` (script 1, lines 23–64): recursively
convert pandas/numpy objects to plain JSON-safe values. -/
def normalize : PyVal → PyVal
  | .none => .none
  | .bool b => .bool b
  | .int n => .int n
  | .float f => if f.isFinite then .float f else .none
  | .complex => .none
  | .date iso => .str iso
  | .datetime iso _ => .str iso
  | .wrapper (some (some v)) _ _ => normalize v
  | .wrapper _ (some (some v)) _ => normalize v
  | .wrapper i t r => .str (pyStr (.wrapper i t r))
  | .dict kvs => .dict (normalizeKVs kvs)
  | .list xs => .list (normalizeList xs)
  | .tuple xs => .list (normalizeList xs)
  | .str s => .str s
  | .obj r => .str (pyStr (.obj r))

/-- Elementwise normalization of a sequence (the list comprehension at
line 56 of script 1). -/
def normalizeList : List PyVal → List PyVal
  | [] => []
  | x :: xs => normalize x :: normalizeList xs

/-- Entrywise normalization of a mapping: keys are stringified with `str`,
values normalized recursively (the dict comprehension at line 53). -/
def normalizeKVs : List (PyVal × PyVal) → List (PyVal × PyVal)
  | [] => []
  | (k, v) :: rest => (.str (pyStr k), normalize v) :: normalizeKVs rest

end

mutual

/-- The NormalizedValue invariant of the spec: only null, booleans,
integers, finite floats, strings, sequences of such values and
string-keyed mappings of such values. -/
def isNormalized : PyVal → Bool
  | .none => true
  | .bool _ => true
  | .int _ => true
  | .float (.finite _) => true
  | .str _ => true
  | .list xs => isNormalizedList xs
  | .dict kvs => isNormalizedKVs kvs
  | _ => false

/-- `isNormalized` on every element of a list. -/
def isNormalizedList : List PyVal → Bool
  | [] => true
  | x :: xs => isNormalized x && isNormalizedList xs

/-- String keys and `isNormalized` values on every entry of a mapping. -/
def isNormalizedKVs : List (PyVal × PyVal) → Bool
  | [] => true
  | (k, v) :: rest =>
    (match k with | .str _ => true | _ => false) && isNormalized v && isNormalizedKVs rest

end

/-- Model of a value produced by `json.loads`: null, booleans, numbers
(which Python materializes as `int` or `float`), strings, arrays and
string-keyed objects. -/
inductive JVal where
  | null
  | bool (b : Bool)
  | int (n : ℤ)
  | float (f : PFloat)
  | str (s : String)
  | arr (xs : List JVal)
  | obj (kvs : List (String × JVal))
deriving Repr

/-- Model of Python `str(value)` on a JSON-derived value.  Scalars are
faithful; container reprs are abstracted to markers (only their
non-emptiness after stripping matters to the scripts). -/
def pyStrOfJ : JVal → String
  | .null => "None"
  | .bool b => if b then "True" else "False"
  | .int n => toString n
  | .float (.finite q) => toString q
  | .float .nan => "nan"
  | .float .inf => "inf"
  | .float .negInf => "-inf"
  | .str s => s
  | .arr _ => "[list-repr]"
  | .obj _ => "dict-repr"

/-- Python truthiness of a JSON-derived value. -/
def jTruthy : JVal → Bool
  | .null => false
  | .bool b => b
  | .int n => n != 0
  | .float (.finite q) => q != 0
  | .float _ => true
  | .str s => s != ""
  | .arr xs => !xs.isEmpty
  | .obj kvs => !kvs.isEmpty

/-- Model of `dict.get(key, default)` on a parsed JSON object. -/
def jGet (kvs : List (String × JVal)) (key : String) (dflt : JVal) : JVal :=
  match kvs.lookup key with
  | some v => v
  | Option.none => dflt

/-- Digits of a decimal numeral folded to a natural number; fails when the
list is empty or contains a non-digit. -/
def natOfDigits (cs : List Char) : Option ℕ :=
  if cs.isEmpty then Option.none
  else if cs.all Char.isDigit then
    some (cs.foldl (fun a c => 10 * a + (c.toNat - 48)) 0)
  else Option.none

/-- Model of Python `int(s)` on a string: strip, optional sign, decimal
digits; anything else raises (underscore grouping is not modelled). -/
def pyIntOfString (s : String) : Option ℤ :=
  match (pstrip s).data with
  | '+' :: rest => (natOfDigits rest).map Int.ofNat
  | '-' :: rest => (natOfDigits rest).map (fun n => -(n : ℤ))
  | cs => (natOfDigits cs).map Int.ofNat

/-- Truncation of a rational toward zero, as Python `int(float)` does. -/
def ratTrunc (q : ℚ) : ℤ := if 0 ≤ q then ⌊q⌋ else ⌈q⌉

/-- Model of Python `int(value)` on a JSON-derived value: `some n` on
success, `Option.none` when `int()` raises (`None`, non-finite floats,
unparsable strings, arrays and objects all raise). -/
def pyIntOfJ : JVal → Option ℤ
  | .bool b => some (if b then 1 else 0)
  | .int n => some n
  | .float (.finite q) => some (ratTrunc q)
  | .str s => pyIntOfString s
  | _ => Option.none

/-- Embedding of `_load_input` (script 1, lines 101–111) and the identical
`_read_input` (script 2, lines 28–38).  `json.loads` is supplied as an
oracle `parse`, with `Option.none` modelling a parse exception. -/
def loadInput (parse : String → Option JVal) (raw : String) : List (String × JVal) :=
  let stripped := pstrip raw
  if stripped = "" then []
  else
    match parse stripped with
    | some (.obj kvs) => kvs
    | some _ => []
    | Option.none => []

/-- JSON string quoting as `json.dumps` performs it (escaping abstracted). -/
def jquote (s : String) : String := "\"" ++ s ++ "\""

/-- The token `json.dumps` writes for a non-finite float when `allow_nan`
is true (the finite case is unused; it mirrors the float repr). -/
def nonFiniteTok : PFloat → String
  | .nan => "NaN"
  | .inf => "Infinity"
  | .negInf => "-Infinity"
  | .finite q => toString q

/-- Serialization of one float by `json.dumps`: with `allowNan` false a
non-finite float raises `ValueError` (modelled as `Option.none`). -/
def floatSer (allowNan : Bool) : PFloat → Option String
  | .finite q => some (toString q)
  | f => if allowNan then some (nonFiniteTok f) else Option.none

/-- Serialization of a dict key by `json.dumps`: string keys are quoted;
`None`/bool/int/float keys are coerced to their JSON-text spelling (a
non-finite float key still honours `allow_nan`); other key types raise
`TypeError`. -/
def keySer (allowNan : Bool) : PyVal → Option String
  | .str s => some (jquote s)
  | .int n => some (jquote (toString n))
  | .bool b => some (jquote (if b then "true" else "false"))
  | .none => some (jquote "null")
  | .float f => (floatSer allowNan f).map jquote
  | _ => Option.none

mutual

/-- Model of `json.dumps` with default separators: `allowNan := true` is
the default used by script 2's `_emit` (line 24); `allowNan := false`
models `allow_nan=False` in script 1's `_emit` (line 116).  `Option.none`
models a raised `ValueError` (non-finite float under `allow_nan=False`) or
`TypeError` (date/complex/wrapper/other unserializable object). -/
def jser (allowNan : Bool) : PyVal → Option String
  | .none => some "null"
  | .bool b => some (if b then "true" else "false")
  | .int n => some (toString n)
  | .float f => floatSer allowNan f
  | .str s => some (jquote s)
  | .list xs => (jserList allowNan xs).map (fun ss => "[" ++ String.intercalate ", " ss ++ "]")
  | .tuple xs => (jserList allowNan xs).map (fun ss => "[" ++ String.intercalate ", " ss ++ "]")
  | .dict kvs => (jserKVs allowNan kvs).map (fun ss => "\x7b" ++ String.intercalate ", " ss ++ "\x7d")
  | _ => Option.none

/-- Elementwise serialization of a JSON array body. -/
def jserList (allowNan : Bool) : List PyVal → Option (List String)
  | [] => some []
  | x :: xs =>
    match jser allowNan x with
    | Option.none => Option.none
    | some s =>
      match jserList allowNan xs with
      | Option.none => Option.none
      | some ss => some (s :: ss)

/-- Entrywise serialization of a JSON object body. -/
def jserKVs (allowNan : Bool) : List (PyVal × PyVal) → Option (List String)
  | [] => some []
  | (k, v) :: rest =>
    match keySer allowNan k with
    | Option.none => Option.none
    | some ks =>
      match jser allowNan v with
      | Option.none => Option.none
      | some vs =>
        match jserKVs allowNan rest with
        | Option.none => Option.none
        | some ss => some ((ks ++ ": " ++ vs) :: ss)

end

mutual

/-- Whether a value contains a non-finite float anywhere (in a scalar
position, a sequence element, a mapping key or a mapping value) — the
values strict `json.dumps` must reject. -/
def hasNonFinite : PyVal → Bool
  | .float f => !f.isFinite
  | .dict kvs => hasNonFiniteKVs kvs
  | .list xs => hasNonFiniteList xs
  | .tuple xs => hasNonFiniteList xs
  | _ => false

/-- `hasNonFinite` over the elements of a sequence. -/
def hasNonFiniteList : List PyVal → Bool
  | [] => false
  | x :: xs => hasNonFinite x || hasNonFiniteList xs

/-- `hasNonFinite` over the keys and values of a mapping. -/
def hasNonFiniteKVs : List (PyVal × PyVal) → Bool
  | [] => false
  | (k, v) :: rest => hasNonFinite k || hasNonFinite v || hasNonFiniteKVs rest

end

/-- Model of a pandas DataFrame as `_df_to_payload` observes it: its
`empty` flag and the result of `to_dict(orient="split")` — `Option.none`
meaning the call (or any other part of the decomposition) raises. -/
structure DF where
  empty : Bool
  toDictSplit : Option PyVal

/-- Embedding of `_df_to_payload` (script 1, lines 67–76). -/
def dfToPayload : Option DF → PyVal
  | Option.none => .none
  | some df =>
    if df.empty then
      .dict [(.str "columns", .list []), (.str "index", .list []), (.str "data", .list [])]
    else
      match df.toDictSplit with
      | some split => normalize split
      | Option.none => .none

/-- Model of a pandas Series as `_series_to_payload` observes it: `empty`
flag, whether it exposes `to_dict`, the ordered key/value pairs `to_dict`
returns — `Option.none` meaning it raises — and the value the object
presents to the generic normalizer in the no-`to_dict` fallback branch. -/
structure Series where
  empty : Bool
  hasToDict : Bool
  toDict : Option (List (PyVal × PyVal))
  asValue : PyVal

/-- Embedding of `_series_to_payload` (script 1, lines 79–98). -/
def seriesToPayload : Option Series → PyVal
  | Option.none => .none
  | some s =>
    if s.empty then .list []
    else if s.hasToDict then
      match s.toDict with
      | some kvs =>
        .list (kvs.map fun kv => .dict [(.str "date", normalize kv.1), (.str "value", normalize kv.2)])
      | Option.none => .none
    else normalize s.asValue

/-- Model of Python `float(value)`: conversion of bool/int/float succeeds,
strings parse via the integer grammar plus the nan/inf spellings (the full
float-literal grammar is abstracted; only success-vs-raise and the NaN
result matter to the scripts), everything else raises. -/
def pyFloatOfPy : PyVal → Option PFloat
  | .bool b => some (.finite (if b then 1 else 0))
  | .int n => some (.finite (n : ℚ))
  | .float f => some f
  | .str s =>
    match pstrip s with
    | "nan" => some .nan
    | "inf" => some .inf
    | "-inf" => some .negInf
    | t => (pyIntOfString t).map (fun n => .finite (n : ℚ))
  | _ => Option.none

/-- Embedding of `_to_number` (script 2, lines 41–50): `None` stays `None`,
a failed `float()` conversion yields `None`, a NaN result (detected by
`number != number`) yields `None`, any other float — infinities included —
passes through. -/
def toNumber (value : PyVal) : Option PFloat :=
  match value with
  | .none => Option.none
  | v =>
    match pyFloatOfPy v with
    | Option.none => Option.none
    | some number =>
      match number with
      | .nan => Option.none
      | f => some f

/-- Embedding of `_index_to_utc_date` (script 2, lines 53–75).  A datetime
resolves to the ISO form of its UTC calendar date (carried as data, since
the embedding does not model timezone arithmetic); a date to its
isoformat; any other value is stringified, stripped and truncated to its
first 10 characters, with the empty string resolving to `None`. -/
def indexToUtcDate (value : PyVal) : Option String :=
  match value with
  | .datetime _ utcDate => some utcDate
  | .date iso => some iso
  | v =>
    let parsed := pstrip (pyStr v)
    if parsed = "" then Option.none
    else some ⟨parsed.data.take 10⟩

/-- Model of `dict.get(key)` / `row.get(col)` with default `None` on a
string-keyed mapping. -/
def getOrNone (kvs : List (String × PyVal)) (key : String) : PyVal :=
  match kvs.lookup key with
  | some v => v
  | Option.none => .none

/-- `Option PFloat` back to the Python value stored in a row field. -/
def optNumVal : Option PFloat → PyVal
  | some f => .float f
  | Option.none => .none

/-- Model of the expression `_to_number(v) or 0.0` used for the dividends
and stock-splits fields: `None` (and falsy `0.0`, which the `or` also
replaces — by the identical value) becomes `0.0`. -/
def orZero (o : Option PFloat) : PFloat := o.getD (.finite 0)

/-- The row object script 2 appends for a resolved date (lines 124–136). -/
def makeRow (date : String) (row : List (String × PyVal)) : PyVal :=
  .dict [ (.str "date", .str date),
          (.str "open", optNumVal (toNumber (getOrNone row "Open"))),
          (.str "high", optNumVal (toNumber (getOrNone row "High"))),
          (.str "low", optNumVal (toNumber (getOrNone row "Low"))),
          (.str "close", optNumVal (toNumber (getOrNone row "Close"))),
          (.str "adjusted_close", optNumVal (toNumber (getOrNone row "Adj Close"))),
          (.str "volume", optNumVal (toNumber (getOrNone row "Volume"))),
          (.str "dividends", .float (orZero (toNumber (getOrNone row "Dividends")))),
          (.str "stock_splits", .float (orZero (toNumber (getOrNone row "Stock Splits")))) ]

/-- The `iterrows` loop of script 2 (lines 119–136): resolve each index to
a UTC date string, emitting one row object per resolved index and skipping
rows whose index does not resolve. -/
def buildRows : List (PyVal × List (String × PyVal)) → List PyVal
  | [] => []
  | (index, row) :: rest =>
    match indexToUtcDate index with
    | Option.none => buildRows rest
    | some date => makeRow date row :: buildRows rest

/-- The failure response dict both scripts build, with keys in insertion
order `ok`, `code`, `error`. -/
def errResp (code msg : String) : PyVal :=
  .dict [(.str "ok", .bool false), (.str "code", .str code), (.str "error", .str msg)]

/-- Outcome of running a script's main under `raise SystemExit(main())`:
either the process exits with the given return code after writing the
listed strings to stdout, or an uncaught exception crashes it (nonzero
exit, traceback on stderr) after writing them. -/
inductive MainOutcome where
  | exits (written : List String) (code : ℕ)
  | crash (written : List String)
deriving Repr

/-- Model of `_emit(resp); return 0` outside any try block: the dumps
result is written and main returns 0; a raised dumps error would crash. -/
def emitPlain (allowNan : Bool) (resp : PyVal) : MainOutcome :=
  match jser allowNan resp with
  | some s => .exits [s] 0
  | Option.none => .crash []

/-- The text of the error `json.dumps` raises, surfaced via `str(error)`;
the exact message is abstracted as a constant. -/
def dumpsErrText : String := "Out of range float values are not JSON compliant"

/-- Model of the final `_emit(success); return 0` inside the try block of
either main: if dumps raises, the except clause emits a `runtime_error`
response built from the exception text (that emit sits in the handler, so
its own failure would crash). -/
def emitGuarded (allowNan : Bool) (resp : PyVal) : MainOutcome :=
  match jser allowNan resp with
  | some s => .exits [s] 0
  | Option.none => emitPlain allowNan (errResp "runtime_error" dumpsErrText)

/-- What script 1's try block obtains from the provider for one ticker
(lines 142–148 and the getattr calls in 150–175), plus the `fetched_at`
timestamp string.  The provider library is opaque; one `Except` models the
try block, in which the first raised exception aborts to the handler. -/
structure Fetched1 where
  info : PyVal
  fastInfo : PyVal
  historyDf : Option DF
  dividends : Option Series
  financials : Option DF
  quarterlyFinancials : Option DF
  balanceSheet : Option DF
  quarterlyBalanceSheet : Option DF
  cashflow : Option DF
  quarterlyCashflow : Option DF
  recommendations : Option DF
  institutionalHolders : Option DF
  majorHolders : Option DF
  calendar : PyVal
  fetchedAt : String

/-- Script 1's provider environment: whether `import yfinance` succeeds,
and the outcome of the data-gathering part of the try block as a function
of the requested history period in days. -/
structure World1 where
  yfAvailable : Bool
  fetch : ℤ → Except String Fetched1

/-- The payload dict script 1 assembles (lines 150–175). -/
def buildPayload1 (ticker : String) (f : Fetched1) : PyVal :=
  .dict [ (.str "ticker", .str ticker),
          (.str "fetched_at", .str f.fetchedAt),
          (.str "info", normalize f.info),
          (.str "fast_info", normalize f.fastInfo),
          (.str "history", dfToPayload f.historyDf),
          (.str "dividends", seriesToPayload f.dividends),
          (.str "financials", dfToPayload f.financials),
          (.str "quarterly_financials", dfToPayload f.quarterlyFinancials),
          (.str "balance_sheet", dfToPayload f.balanceSheet),
          (.str "quarterly_balance_sheet", dfToPayload f.quarterlyBalanceSheet),
          (.str "cashflow", dfToPayload f.cashflow),
          (.str "quarterly_cashflow", dfToPayload f.quarterlyCashflow),
          (.str "recommendations", dfToPayload f.recommendations),
          (.str "institutional_holders", dfToPayload f.institutionalHolders),
          (.str "major_holders", dfToPayload f.majorHolders),
          (.str "calendar", normalize f.calendar) ]

/-- The value submitted to `int()` at line 123 of script 1:
`args.get("history_days", 30) or 30`. -/
def historyDaysChoice (args : List (String × JVal)) : JVal :=
  let raw := jGet args "history_days" (.int 30)
  if jTruthy raw then raw else .int 30

/-- Embedding of script 1's `main` (lines 120–187), given the parsed args
mapping and a provider world.  Note `int(args.get("history_days", 30) or
30)` runs before the ticker check and outside every try block, so its
failure crashes the process with nothing written. -/
def script1_main (args : List (String × JVal)) (w : World1) : MainOutcome :=
  let ticker := pstrip (pyStrOfJ (jGet args "ticker" (.str "")))
  match pyIntOfJ (historyDaysChoice args) with
  | Option.none => .crash []
  | some historyDays =>
    if ticker = "" then
      emitPlain false (errResp "invalid_input" "ticker is required")
    else if !w.yfAvailable then
      emitPlain false (errResp "dependency_missing" "python package 'yfinance' is not installed")
    else
      match w.fetch (max historyDays 1) with
      | .error msg => emitPlain false (errResp "runtime_error" msg)
      | .ok f =>
        emitGuarded false
          (.dict [ (.str "ok", .bool true),
                   (.str "source", .str "yfinance"),
                   (.str "payload", buildPayload1 ticker f) ])

/-- The history request script 2 builds (lines 103–113): the interval and
the window, with priority `start_date` > `period` > default period
`"max"`. -/
structure HistRequest where
  interval : String
  start : Option String
  period : Option String
deriving Repr, DecidableEq

/-- Model of the history table script 2 iterates: its `empty` flag and its
rows as (index, row-mapping) pairs in iteration order. -/
structure DF2 where
  empty : Bool
  rows : List (PyVal × List (String × PyVal))

/-- What script 2's try block obtains from the provider: the history
table (`Option.none` modelling `history is None`), the info mapping after
the `or {}` defaulting, and the `fetched_at` timestamp string. -/
structure Fetched2 where
  history : Option DF2
  info : List (String × PyVal)
  fetchedAt : String

/-- Script 2's provider environment: whether `import yfinance` succeeds,
and the outcome of the try block's data gathering for a given request. -/
structure World2 where
  yfAvailable : Bool
  fetch : HistRequest → Except String Fetched2

/-- Embedding of script 2's `main` (lines 78–155), given the parsed args
mapping and a provider world. -/
def script2_main (args : List (String × JVal)) (w : World2) : MainOutcome :=
  let ticker := pstrip (pyStrOfJ (jGet args "ticker" (.str "")))
  let startDate :=
    let s := pstrip (pyStrOfJ (jGet args "start_date" (.str "")))
    if s = "" then Option.none else some s
  let period :=
    let s := pstrip (pyStrOfJ (jGet args "period" (.str "")))
    if s = "" then Option.none else some s
  let interval :=
    let s := pstrip (pyStrOfJ (jGet args "interval" (.str "1d")))
    if s = "" then "1d" else s
  if ticker = "" then
    emitPlain true (errResp "invalid_input" "ticker is required")
  else if !w.yfAvailable then
    emitPlain true (errResp "dependency_missing" "python package 'yfinance' is not installed")
  else
    let req : HistRequest :=
      match startDate, period with
      | some sd, _ => ⟨interval, some sd, Option.none⟩
      | Option.none, some p => ⟨interval, Option.none, some p⟩
      | Option.none, Option.none => ⟨interval, Option.none, some "max"⟩
    match w.fetch req with
    | .error msg => emitPlain true (errResp "runtime_error" msg)
    | .ok f =>
      let rows :=
        match f.history with
        | Option.none => []
        | some h => if h.empty then [] else buildRows h.rows
      let currency := getOrNone f.info "currency"
      emitGuarded true
        (.dict [ (.str "ok", .bool true),
                 (.str "payload",
                  .dict [ (.str "ticker", .str ticker),
                          (.str "currency", currency),
                          (.str "fetched_at", .str f.fetchedAt),
                          (.str "rows", .list rows) ]) ])

/-- A provider world for script 1 in which the yfinance import fails. -/
def w1NoDep : World1 := ⟨false, fun _ => .error "unused"⟩

/-- A trivial successful fetch result for script 1. -/
def fetched1Trivial : Fetched1 :=
  ⟨.dict [], .dict [], Option.none, Option.none, Option.none, Option.none, Option.none,
   Option.none, Option.none, Option.none, Option.none, Option.none, Option.none, .none, "t"⟩

/-- A provider world for script 1 in which every fetch succeeds trivially. -/
def w1Ok : World1 := ⟨true, fun _ => .ok fetched1Trivial⟩

/-- A provider world for script 2 in which the yfinance import fails. -/
def w2NoDep : World2 := ⟨false, fun _ => .error "unused"⟩

/-- A provider world for script 2 in which every fetch succeeds trivially. -/
def w2Ok : World2 := ⟨true, fun _ => .ok ⟨Option.none, [], "t"⟩⟩

/-- A provider world for script 2 whose metadata reports a NaN currency. -/
def w2Nan : World2 := ⟨true, fun _ => .ok ⟨Option.none, [("currency", .float .nan)], "t"⟩⟩

/-- Observer: the value at a string key of a dict value (`.none` when the
key is absent or the value is not a dict). -/
def dictField (v : PyVal) (key : String) : PyVal :=
  match v with
  | .dict kvs =>
    match kvs.find? (fun kv => match kv.1 with | .str s => s == key | _ => false) with
    | some kv => kv.2
    | Option.none => .none
  | _ => .none

/-- The six row fields of script 2 whose unparseable values become null,
paired with the source column each is read from. -/
def numericFields : List (String × String) :=
  [("open", "Open"), ("high", "High"), ("low", "Low"), ("close", "Close"),
   ("adjusted_close", "Adj Close"), ("volume", "Volume")]

/-- The exact response line script 1 writes for a missing/blank ticker. -/
def invalidInputOut : String :=
  "\x7b\"ok\": false, \"code\": \"invalid_input\", \"error\": \"ticker is required\"\x7d"

/-- The empty-table triple `_df_to_payload` returns for an empty table. -/
def emptyTriple : PyVal :=
  .dict [(.str "columns", .list []), (.str "index", .list []), (.str "data", .list [])]

/-- A table reporting itself empty. -/
def dfEmptyT : DF := ⟨true, some (.dict [])⟩

/-- A non-empty table whose decomposition raises. -/
def dfRaises : DF := ⟨false, Option.none⟩

/-- An empty series. -/
def serEmptyT : Series := ⟨true, true, some [], .none⟩

/-- A one-point dividend series. -/
def serOne : Series :=
  ⟨false, true, some [(.date "2024-01-02", .float (.finite 1))], .none⟩

/-- A non-empty series whose `to_dict` raises. -/
def serRaises : Series := ⟨false, true, Option.none, .none⟩

/-- A history row whose Volume cell fails float conversion. -/
def rowBadVolume : List (String × PyVal) :=
  [("Open", .float (.finite 1)), ("High", .float (.finite 2)), ("Low", .float (.finite 1)),
   ("Close", .float (.finite 2)), ("Adj Close", .float (.finite 2)), ("Volume", .obj "junk"),
   ("Dividends", .float .nan), ("Stock Splits", .none)]

/-- A `json.loads` oracle that always raises. -/
def parseFail : String → Option JVal := fun _ => Option.none

/-- A `json.loads` oracle that parses everything to a non-object value. -/
def parseArr : String → Option JVal := fun _ => some (.arr [])

mutual

/-- The normalizer only produces NormalizedValues: null, booleans,
integers, finite floats, strings, sequences and string-keyed mappings of
such values. -/
theorem normalize_isNormalized : (v : PyVal) → isNormalized (normalize v) = true
  | .none => rfl
  | .bool _ => rfl
  | .int _ => rfl
  | .float (.finite _) => rfl
  | .float .nan => rfl
  | .float .inf => rfl
  | .float .negInf => rfl
  | .complex => rfl
  | .date _ => rfl
  | .datetime _ _ => rfl
  | .str _ => rfl
  | .obj _ => rfl
  | .wrapper (some (some v)) _ _ => by
    simp only [normalize]; exact normalize_isNormalized v
  | .wrapper Option.none (some (some v)) _ => by
    simp only [normalize]; exact normalize_isNormalized v
  | .wrapper (some Option.none) (some (some v)) _ => by
    simp only [normalize]; exact normalize_isNormalized v
  | .wrapper Option.none Option.none _ => rfl
  | .wrapper Option.none (some Option.none) _ => rfl
  | .wrapper (some Option.none) Option.none _ => rfl
  | .wrapper (some Option.none) (some Option.none) _ => rfl
  | .dict kvs => normalizeKVs_isNormalized kvs
  | .list xs => normalizeList_isNormalized xs
  | .tuple xs => normalizeList_isNormalized xs

/-- Elementwise form of `normalize_isNormalized` for sequences. -/
theorem normalizeList_isNormalized : (xs : List PyVal) →
    isNormalizedList (normalizeList xs) = true
  | [] => rfl
  | x :: xs => by
    rw [normalizeList, isNormalizedList, normalize_isNormalized x,
      normalizeList_isNormalized xs]
    rfl

/-- Entrywise form of `normalize_isNormalized` for mappings. -/
theorem normalizeKVs_isNormalized : (kvs : List (PyVal × PyVal)) →
    isNormalized (.dict (normalizeKVs kvs)) = true
  | [] => rfl
  | (k, v) :: rest => by
    rw [normalizeKVs]
    show isNormalizedKVs ((.str (pyStr k), normalize v) :: normalizeKVs rest) = true
    rw [isNormalizedKVs, normalize_isNormalized v]
    have h := normalizeKVs_isNormalized rest
    rw [show isNormalized (.dict (normalizeKVs rest)) = isNormalizedKVs (normalizeKVs rest) from rfl] at h
    rw [h]
    rfl

end

mutual

/-- A NormalizedValue passes through the normalizer unchanged. -/
theorem normalize_fixed : (v : PyVal) → isNormalized v = true → normalize v = v
  | .none, _ => rfl
  | .bool _, _ => rfl
  | .int _, _ => rfl
  | .float (.finite _), _ => rfl
  | .str _, _ => rfl
  | .float .nan, h => by simp [isNormalized] at h
  | .float .inf, h => by simp [isNormalized] at h
  | .float .negInf, h => by simp [isNormalized] at h
  | .complex, h => by simp [isNormalized] at h
  | .date _, h => by simp [isNormalized] at h
  | .datetime _ _, h => by simp [isNormalized] at h
  | .tuple _, h => by simp [isNormalized] at h
  | .wrapper _ _ _, h => by simp [isNormalized] at h
  | .obj _, h => by simp [isNormalized] at h
  | .list xs, h => by
    simp only [isNormalized] at h
    simp only [normalize]
    rw [normalizeList_fixed xs h]
  | .dict kvs, h => by
    simp only [isNormalized] at h
    simp only [normalize]
    rw [normalizeKVs_fixed kvs h]

/-- Elementwise form of `normalize_fixed` for sequences. -/
theorem normalizeList_fixed : (xs : List PyVal) →
    isNormalizedList xs = true → normalizeList xs = xs
  | [], _ => rfl
  | x :: xs, h => by
    simp only [isNormalizedList, Bool.and_eq_true] at h
    rw [normalizeList, normalize_fixed x h.1, normalizeList_fixed xs h.2]

/-- Entrywise form of `normalize_fixed` for mappings. -/
theorem normalizeKVs_fixed : (kvs : List (PyVal × PyVal)) →
    isNormalizedKVs kvs = true → normalizeKVs kvs = kvs
  | [], _ => rfl
  | (k, v) :: rest, h => by
    simp only [isNormalizedKVs, Bool.and_eq_true] at h
    obtain ⟨⟨hk, hv⟩, hrest⟩ := h
    rw [normalizeKVs, normalize_fixed v hv, normalizeKVs_fixed rest hrest]
    cases k <;> simp_all [pyStr]

end

/-- Strict-mode key serialization fails on every key containing a
non-finite float. -/
theorem keySer_hasNonFinite (k : PyVal) (h : hasNonFinite k = true) :
    keySer false k = Option.none := by
  cases k with
  | float f => cases f with
    | finite q => simp [hasNonFinite, PFloat.isFinite] at h
    | nan => rfl
    | inf => rfl
    | negInf => rfl
  | dict kvs => rfl
  | list xs => rfl
  | tuple xs => rfl
  | _ => simp [hasNonFinite] at h

mutual

/-- Strict `json.dumps` (allow_nan=False) raises on every value containing
a non-finite float anywhere: the last-line defense of script 1's `_emit`. -/
theorem jser_strict_nonFinite : (p : PyVal) → hasNonFinite p = true →
    jser false p = Option.none
  | .float f, h => by
    cases f with
    | finite q => simp [hasNonFinite, PFloat.isFinite] at h
    | nan => rfl
    | inf => rfl
    | negInf => rfl
  | .list xs, h => by
    simp only [hasNonFinite] at h
    simp only [jser]
    rw [jserList_nonFinite xs h]
    rfl
  | .tuple xs, h => by
    simp only [hasNonFinite] at h
    simp only [jser]
    rw [jserList_nonFinite xs h]
    rfl
  | .dict kvs, h => by
    simp only [hasNonFinite] at h
    simp only [jser]
    rw [jserKVs_nonFinite kvs h]
    rfl
  | .none, h => by simp [hasNonFinite] at h
  | .bool _, h => by simp [hasNonFinite] at h
  | .int _, h => by simp [hasNonFinite] at h
  | .str _, h => by simp [hasNonFinite] at h
  | .complex, h => by simp [hasNonFinite] at h
  | .date _, h => by simp [hasNonFinite] at h
  | .datetime _ _, h => by simp [hasNonFinite] at h
  | .wrapper _ _ _, h => by simp [hasNonFinite] at h
  | .obj _, h => by simp [hasNonFinite] at h

/-- Elementwise form of `jser_strict_nonFinite` for arrays. -/
theorem jserList_nonFinite : (xs : List PyVal) → hasNonFiniteList xs = true →
    jserList false xs = Option.none
  | x :: xs, h => by
    simp only [hasNonFiniteList, Bool.or_eq_true] at h
    rw [jserList]
    rcases h with h | h
    · rw [jser_strict_nonFinite x h]
    · rw [jserList_nonFinite xs h]
      cases jser false x <;> rfl

/-- Entrywise form of `jser_strict_nonFinite` for objects. -/
theorem jserKVs_nonFinite : (kvs : List (PyVal × PyVal)) →
    hasNonFiniteKVs kvs = true → jserKVs false kvs = Option.none
  | (k, v) :: rest, h => by
    simp only [hasNonFiniteKVs, Bool.or_eq_true] at h
    rw [jserKVs]
    rcases h with (h | h) | h
    · rw [keySer_hasNonFinite k h]
    · rw [jser_strict_nonFinite v h]
      cases keySer false k <;> rfl
    · rw [jserKVs_nonFinite rest h]
      cases keySer false k <;> try rfl
      cases jser false v <;> rfl

end

/-- The failure response always serializes, in either dumps mode. -/
theorem jser_errResp_isSome (an : Bool) (code msg : String) :
    ∃ s, jser an (errResp code msg) = some s :=
  ⟨_, rfl⟩

/-- Emitting a failure response outside the try block writes exactly one
line and returns 0. -/
theorem emitPlain_errResp (an : Bool) (code msg : String) :
    ∃ s, emitPlain an (errResp code msg) = .exits [s] 0 := by
  obtain ⟨s, h⟩ := jser_errResp_isSome an code msg
  exact ⟨s, by simp only [emitPlain]; rw [h]⟩

/-- The guarded final emit always writes exactly one line and returns 0:
either the response serializes, or the handler's runtime_error response
(made of strings and a boolean) does. -/
theorem emitGuarded_exits (an : Bool) (resp : PyVal) :
    ∃ s, emitGuarded an resp = .exits [s] 0 := by
  cases h : jser an resp with
  | some s => exact ⟨s, by simp only [emitGuarded]; rw [h]⟩
  | none =>
    obtain ⟨s, hs⟩ := emitPlain_errResp an "runtime_error" dumpsErrText
    exact ⟨s, by simp only [emitGuarded]; rw [h]; exact hs⟩

/-- Whenever the `history_days` coercion succeeds, script 1's main writes
exactly one response line and returns 0, whatever the provider does. -/
theorem script1_main_exits (args : List (String × JVal)) (w : World1)
    (h : (pyIntOfJ (historyDaysChoice args)).isSome = true) :
    ∃ s, script1_main args w = .exits [s] 0 := by
  obtain ⟨n, hn⟩ := Option.isSome_iff_exists.mp h
  simp only [script1_main, hn]
  split
  · exact emitPlain_errResp false "invalid_input" "ticker is required"
  · split
    · exact emitPlain_errResp false "dependency_missing" "python package 'yfinance' is not installed"
    · split
      · exact emitPlain_errResp false "runtime_error" _
      · exact emitGuarded_exits false _

/-- Script 2's main writes exactly one response line and returns 0 on
every request and in every provider world. -/
theorem script2_main_exits (args : List (String × JVal)) (w : World2) :
    ∃ s, script2_main args w = .exits [s] 0 := by
  simp only [script2_main]
  split
  · exact emitPlain_errResp true "invalid_input" "ticker is required"
  · split
    · exact emitPlain_errResp true "dependency_missing" "python package 'yfinance' is not installed"
    · split
      · exact emitPlain_errResp true "runtime_error" _
      · exact emitGuarded_exits true _

/-- When the ticker is blank after stripping (and the history_days
coercion did not crash first), script 1 writes exactly the invalid_input
response line — the same outcome in every provider world, since the
provider is never consulted. -/
theorem script1_main_blank_ticker (args : List (String × JVal)) (w : World1)
    (ht : pstrip (pyStrOfJ (jGet args "ticker" (.str ""))) = "")
    (h : (pyIntOfJ (historyDaysChoice args)).isSome = true) :
    script1_main args w = .exits [invalidInputOut] 0 := by
  obtain ⟨n, hn⟩ := Option.isSome_iff_exists.mp h
  simp only [script1_main, hn, ht]
  rfl

/-- Each numeric row field of script 2 is exactly the `_to_number`
coercion of its own source column, independent of every other cell. -/
theorem makeRow_numeric_field (date : String) (row : List (String × PyVal))
    (p : String × String) (hp : p ∈ numericFields) :
    dictField (makeRow date row) p.1 = optNumVal (toNumber (getOrNone row p.2)) := by
  fin_cases hp <;> rfl

/-- The dividends field of an emitted row is always a float, namely the
`or 0.0` defaulting of its coercion. -/
theorem makeRow_dividends (date : String) (row : List (String × PyVal)) :
    dictField (makeRow date row) "dividends" =
      .float (orZero (toNumber (getOrNone row "Dividends"))) := rfl

/-- The stock_splits field of an emitted row is always a float, namely the
`or 0.0` defaulting of its coercion. -/
theorem makeRow_splits (date : String) (row : List (String × PyVal)) :
    dictField (makeRow date row) "stock_splits" =
      .float (orZero (toNumber (getOrNone row "Stock Splits"))) := rfl

/-- The row loop emits one row object per index that resolves to a date,
in order, skipping exactly the rows whose index does not resolve. -/
theorem buildRows_filterMap (rows : List (PyVal × List (String × PyVal))) :
    buildRows rows =
      rows.filterMap (fun p => (indexToUtcDate p.1).map (fun d => makeRow d p.2)) := by
  induction rows with
  | nil => rfl
  | cons p rest ih =>
    obtain ⟨index, row⟩ := p
    rw [List.filterMap_cons]
    cases h : indexToUtcDate index with
    | none => simp only [buildRows, h, Option.map_none']; exact ih
    | some d => simp only [buildRows, h, Option.map_some']; rw [ih]

/-- A row whose index does not resolve to a date string is skipped
entirely. -/
theorem buildRows_skip (index : PyVal) (row : List (String × PyVal))
    (rest : List (PyVal × List (String × PyVal)))
    (h : indexToUtcDate index = Option.none) :
    buildRows ((index, row) :: rest) = buildRows rest := by
  simp only [buildRows, h]

/-- Claim C1, amended: only script 1's response writer serializes under
strict JSON — its encoding fails loudly (raises, emitting nothing)
whenever a non-finite float reaches it anywhere in the response.  Script
2's writer omits `allow_nan=False`, so a non-finite float reaching it is
serialized as a bare NaN/Infinity token literal instead of failing. -/
theorem C1_strict_writer :
    (∀ p, hasNonFinite p = true → jser false p = Option.none)
    ∧ (∀ f, PFloat.isFinite f = false → jser true (.float f) = some (nonFiniteTok f)) :=
  ⟨fun p h => jser_strict_nonFinite p h,
   fun f h => by
    cases f with
    | finite q => simp [PFloat.isFinite] at h
    | nan => rfl
    | inf => rfl
    | negInf => rfl⟩

/-- Claim C1 witness: a response containing an infinite float is rejected
by script 1's strict encoder, while script 2's permissive encoder writes
the NaN token. -/
theorem C1_strict_writer_witness :
    (hasNonFinite (.dict [(.str "v", .float .inf)]) = true
      ∧ jser false (.dict [(.str "v", .float .inf)]) = Option.none)
    ∧ (PFloat.isFinite .nan = false
      ∧ jser true (.float .nan) = some (nonFiniteTok .nan)) :=
  ⟨⟨rfl, C1_strict_writer.1 _ rfl⟩, ⟨rfl, C1_strict_writer.2 _ rfl⟩⟩

/-- Claim C1 counterexample: script 2's `_emit` does not serialize under
strict JSON — with a provider reporting a NaN currency, the script writes
a response line containing a bare NaN literal and succeeds, instead of
the encoding failing loudly. -/
theorem C1_counterexample :
    script2_main [("ticker", .str "T")] w2Nan =
      .exits ["\x7b\"ok\": true, \"payload\": \x7b\"ticker\": \"T\", \"currency\": NaN, \"fetched_at\": \"t\", \"rows\": []\x7d\x7d"] 0 := rfl

/-- Claim C2, amended: for every JSON request object whose `history_days`
value survives the `int()` coercion at line 123 (which runs outside every
try block), script 1's main writes exactly one response line and returns
0 in every provider world; script 2's main does so unconditionally. -/
theorem C2_single_response :
    (∀ args w, (pyIntOfJ (historyDaysChoice args)).isSome = true →
        ∃ s, script1_main args w = .exits [s] 0)
    ∧ (∀ args w, ∃ s, script2_main args w = .exits [s] 0) :=
  ⟨script1_main_exits, script2_main_exits⟩

/-- Claim C2 witness at a well-formed request. -/
theorem C2_single_response_witness :
    (pyIntOfJ (historyDaysChoice [("ticker", JVal.str "T")])).isSome = true
    ∧ (∃ s, script1_main [("ticker", JVal.str "T")] w1Ok = .exits [s] 0)
    ∧ (∃ s, script2_main [("ticker", JVal.str "T")] w2Ok = .exits [s] 0) :=
  ⟨rfl, C2_single_response.1 _ w1Ok rfl, C2_single_response.2 _ w2Ok⟩

/-- Claim C2 counterexample: the request with ticker "AAPL" and
history_days "abc" makes `int("abc")` raise before anything is emitted;
the process crashes with no response object and a nonzero exit. -/
theorem C2_counterexample :
    script1_main [("ticker", .str "AAPL"), ("history_days", .str "abc")] w1Ok =
      .crash [] := rfl

/-- Claim C3: the normalizer only produces NormalizedValues — at every
nesting depth only null, booleans, integers, finite floats, strings,
sequences and string-keyed mappings of such values; date and datetime
objects become their ISO-8601 strings. -/
theorem C3_normalizer_invariant :
    (∀ v, isNormalized (normalize v) = true)
    ∧ (∀ iso, normalize (.date iso) = .str iso)
    ∧ (∀ iso utc, normalize (.datetime iso utc) = .str iso) :=
  ⟨normalize_isNormalized, fun _ => rfl, fun _ _ => rfl⟩

/-- Claim C4: a finite float normalizes to itself; NaN and both
infinities normalize to null. -/
theorem C4_float_normalization :
    (∀ q : ℚ, normalize (.float (.finite q)) = .float (.finite q))
    ∧ normalize (.float .nan) = PyVal.none
    ∧ normalize (.float .inf) = PyVal.none
    ∧ normalize (.float .negInf) = PyVal.none :=
  ⟨fun _ => rfl, rfl, rfl, rfl⟩

/-- Claim C5: a string normalizes to itself, never to the sequence of its
characters. -/
theorem C5_string_primitive :
    (∀ s, normalize (.str s) = .str s)
    ∧ normalize (.str "abc") ≠ .list [.str "a", .str "b", .str "c"] :=
  ⟨fun _ => rfl, fun h => PyVal.noConfusion h⟩

/-- Claim C5 witness at a concrete string. -/
theorem C5_string_primitive_witness : normalize (.str "xy") = .str "xy" :=
  C5_string_primitive.1 "xy"

/-- Claim C6: the table adapter returns null for a null table, the empty
triple for a table reporting itself empty, and null — not an exception —
whenever the decomposition of a non-empty table raises. -/
theorem C6_table_adapter :
    dfToPayload Option.none = PyVal.none
    ∧ (∀ df : DF, df.empty = true → dfToPayload (some df) = emptyTriple)
    ∧ (∀ df : DF, df.empty = false → df.toDictSplit = Option.none →
        dfToPayload (some df) = PyVal.none) := by
  refine ⟨rfl, ?_, ?_⟩
  · rintro ⟨e, t⟩ h
    cases h
    rfl
  · rintro ⟨e, t⟩ h1 h2
    cases h1
    cases h2
    rfl

/-- Claim C6 witness: an empty table and a raising table. -/
theorem C6_table_adapter_witness :
    (dfEmptyT.empty = true ∧ dfToPayload (some dfEmptyT) = emptyTriple)
    ∧ (dfRaises.empty = false ∧ dfRaises.toDictSplit = Option.none
        ∧ dfToPayload (some dfRaises) = PyVal.none) :=
  ⟨⟨rfl, C6_table_adapter.2.1 dfEmptyT rfl⟩,
   ⟨rfl, rfl, C6_table_adapter.2.2 dfRaises rfl rfl⟩⟩

/-- Claim C7: the series adapter returns null for a null series, the
empty sequence for an empty series, one `date`/`value` object per
(index, value) pair in the series' native order otherwise, and null when
the conversion raises. -/
theorem C7_series_adapter :
    seriesToPayload Option.none = PyVal.none
    ∧ (∀ s : Series, s.empty = true → seriesToPayload (some s) = .list [])
    ∧ (∀ (s : Series) kvs, s.empty = false → s.hasToDict = true → s.toDict = some kvs →
        seriesToPayload (some s) =
          .list (kvs.map fun kv =>
            .dict [(.str "date", normalize kv.1), (.str "value", normalize kv.2)]))
    ∧ (∀ s : Series, s.empty = false → s.hasToDict = true → s.toDict = Option.none →
        seriesToPayload (some s) = PyVal.none) := by
  refine ⟨rfl, ?_, ?_, ?_⟩
  · rintro ⟨e, hd, td, av⟩ h
    cases h
    rfl
  · rintro ⟨e, hd, td, av⟩ kvs h1 h2 h3
    cases h1
    cases h2
    cases h3
    rfl
  · rintro ⟨e, hd, td, av⟩ h1 h2 h3
    cases h1
    cases h2
    cases h3
    rfl

/-- Claim C7 witness: the empty series, a one-point series, and a series
whose `to_dict` raises. -/
theorem C7_series_adapter_witness :
    (serEmptyT.empty = true ∧ seriesToPayload (some serEmptyT) = .list [])
    ∧ (serOne.empty = false ∧ serOne.hasToDict = true
        ∧ serOne.toDict = some [(.date "2024-01-02", .float (.finite 1))]
        ∧ seriesToPayload (some serOne) =
            .list [.dict [(.str "date", .str "2024-01-02"), (.str "value", .float (.finite 1))]])
    ∧ (serRaises.empty = false ∧ serRaises.hasToDict = true
        ∧ serRaises.toDict = Option.none
        ∧ seriesToPayload (some serRaises) = PyVal.none) :=
  ⟨⟨rfl, C7_series_adapter.2.1 serEmptyT rfl⟩,
   ⟨rfl, rfl, rfl, C7_series_adapter.2.2.1 serOne _ rfl rfl rfl⟩,
   ⟨rfl, rfl, rfl, C7_series_adapter.2.2.2 serRaises rfl rfl rfl⟩⟩

/-- Claim C8: each numeric row field is the `_to_number` coercion of its
own column — null when conversion fails or yields NaN, with every other
field unaffected; dividends and stock_splits instead default to 0.0 and
are never null; and a row is emitted exactly when its index resolves to a
date string, rows with unresolvable indices being skipped entirely. -/
theorem C8_row_fields :
    (∀ (date : String) row, ∀ p ∈ numericFields,
        dictField (makeRow date row) p.1 = optNumVal (toNumber (getOrNone row p.2)))
    ∧ (∀ (date : String) row p, p ∈ numericFields →
        toNumber (getOrNone row p.2) = Option.none →
        dictField (makeRow date row) p.1 = PyVal.none)
    ∧ (∀ (date : String) row,
        dictField (makeRow date row) "dividends" =
          .float (orZero (toNumber (getOrNone row "Dividends")))
        ∧ dictField (makeRow date row) "dividends" ≠ PyVal.none
        ∧ (toNumber (getOrNone row "Dividends") = Option.none →
            dictField (makeRow date row) "dividends" = .float (.finite 0)))
    ∧ (∀ (date : String) row,
        dictField (makeRow date row) "stock_splits" =
          .float (orZero (toNumber (getOrNone row "Stock Splits")))
        ∧ dictField (makeRow date row) "stock_splits" ≠ PyVal.none
        ∧ (toNumber (getOrNone row "Stock Splits") = Option.none →
            dictField (makeRow date row) "stock_splits" = .float (.finite 0)))
    ∧ (∀ rows, buildRows rows =
        rows.filterMap fun p => (indexToUtcDate p.1).map fun d => makeRow d p.2)
    ∧ (∀ index row rest, indexToUtcDate index = Option.none →
        buildRows ((index, row) :: rest) = buildRows rest) := by
  refine ⟨makeRow_numeric_field, ?_, ?_, ?_, buildRows_filterMap, buildRows_skip⟩
  · intro date row p hp h
    rw [makeRow_numeric_field date row p hp, h]
    rfl
  · intro date row
    refine ⟨makeRow_dividends date row, ?_, ?_⟩
    · rw [makeRow_dividends date row]
      exact fun h => PyVal.noConfusion h
    · intro h
      rw [makeRow_dividends date row, h]
      rfl
  · intro date row
    refine ⟨makeRow_splits date row, ?_, ?_⟩
    · rw [makeRow_splits date row]
      exact fun h => PyVal.noConfusion h
    · intro h
      rw [makeRow_splits date row, h]
      rfl

/-- Claim C8 witness: a row with an unparseable Volume keeps its other
fields and gets a null volume; its NaN dividends default to 0.0; a
whitespace index is skipped. -/
theorem C8_row_fields_witness :
    (("volume", "Volume") ∈ numericFields
      ∧ toNumber (getOrNone rowBadVolume "Volume") = Option.none
      ∧ dictField (makeRow "2024-01-02" rowBadVolume) "volume" = PyVal.none
      ∧ dictField (makeRow "2024-01-02" rowBadVolume) "open" = .float (.finite 1))
    ∧ (toNumber (getOrNone rowBadVolume "Dividends") = Option.none
      ∧ dictField (makeRow "2024-01-02" rowBadVolume) "dividends" = .float (.finite 0))
    ∧ (indexToUtcDate (.str "   ") = Option.none
      ∧ buildRows [(.str "   ", rowBadVolume)] = buildRows []) :=
  ⟨⟨by simp [numericFields], rfl,
    C8_row_fields.2.1 "2024-01-02" rowBadVolume ("volume", "Volume") (by simp [numericFields]) rfl,
    rfl⟩,
   ⟨rfl, (C8_row_fields.2.2.1 "2024-01-02" rowBadVolume).2.2 rfl⟩,
   ⟨rfl, C8_row_fields.2.2.2.2.2 (.str "   ") rowBadVolume [] rfl⟩⟩

/-- Claim C9, amended: empty, unparsable, and non-object stdin all reduce
the request mapping to the empty mapping; and a request whose ticker is
absent or blank after trimming — provided its `history_days` value
survives the `int()` coercion that runs first — makes script 1 write
exactly the invalid_input response line, identically in every provider
world (no provider call is consulted), and return 0. -/
theorem C9_request_reader :
    (∀ parse raw, pstrip raw = "" → loadInput parse raw = [])
    ∧ (∀ parse raw, parse (pstrip raw) = Option.none → loadInput parse raw = [])
    ∧ (∀ parse raw v, parse (pstrip raw) = some v → (∀ kvs, v ≠ JVal.obj kvs) →
        loadInput parse raw = [])
    ∧ (∀ args (w : World1), pstrip (pyStrOfJ (jGet args "ticker" (.str ""))) = "" →
        (pyIntOfJ (historyDaysChoice args)).isSome = true →
        script1_main args w = .exits [invalidInputOut] 0) := by
  refine ⟨?_, ?_, ?_, script1_main_blank_ticker⟩
  · intro parse raw h
    simp [loadInput, h]
  · intro parse raw h
    simp [loadInput, h]
  · intro parse raw v h h2
    simp only [loadInput, h]
    cases v with
    | obj kvs => exact absurd rfl (h2 kvs)
    | null => simp
    | bool b => simp
    | int n => simp
    | float f => simp
    | str s => simp
    | arr xs => simp

/-- Claim C9 witness: whitespace stdin, raising parse, non-object parse,
and the empty request each yield the invalid_input line from script 1. -/
theorem C9_request_reader_witness :
    (pstrip " " = "" ∧ loadInput parseFail " " = [])
    ∧ (parseFail (pstrip "x") = Option.none ∧ loadInput parseFail "x" = [])
    ∧ (parseArr (pstrip "[1]") = some (.arr []) ∧ loadInput parseArr "[1]" = [])
    ∧ (pstrip (pyStrOfJ (jGet [] "ticker" (.str ""))) = ""
      ∧ (pyIntOfJ (historyDaysChoice [])).isSome = true
      ∧ script1_main [] w1Ok = .exits [invalidInputOut] 0) :=
  ⟨⟨by decide, C9_request_reader.1 parseFail " " (by decide)⟩,
   ⟨rfl, C9_request_reader.2.1 parseFail "x" rfl⟩,
   ⟨rfl, C9_request_reader.2.2.1 parseArr "[1]" (.arr []) rfl
      (fun kvs h => JVal.noConfusion h)⟩,
   ⟨rfl, rfl, C9_request_reader.2.2.2 [] w1Ok rfl rfl⟩⟩

/-- Claim C9 counterexample: a request whose ticker is absent (hence
blank) but whose history_days is the unconvertible string "x" crashes
script 1 before the invalid_input response is emitted. -/
theorem C9_counterexample :
    pstrip (pyStrOfJ (jGet [("history_days", JVal.str "x")] "ticker" (.str ""))) = ""
    ∧ script1_main [("history_days", JVal.str "x")] w1Ok = .crash [] :=
  ⟨rfl, rfl⟩

/-- Claim C10: the normalizer is idempotent — everything it produces is a
fixed point of a second normalization. -/
theorem C10_normalize_idempotent : ∀ v, normalize (normalize v) = normalize v :=
  fun v => normalize_fixed (normalize v) (normalize_isNormalized v)

end Wealth
